import Mathlib

/-!
Verification of the vehicle-parts-scraper repository.

This file shallowly embeds the browser-acquisition routine
`launch_browser_with_fallback` from `src/utils/helpers.py`, the CSV writer
`save_to_csv` from the same module, and the extraction loops of the site
scrapers in `src/scrapers/`, and proves the spec's claims about them.

Python strings are modelled as Lean `String`s; where Python string methods
(`str.lower`, `str.strip`, the `in` substring test, `str.isdigit`) are used
by the code, they are re-implemented here over `List Char` so that all
definitions kernel-evaluate on concrete inputs.
-/

namespace VPScraper

/-! ## String helpers (embeddings of the Python string methods the code uses) -/

/-- Embedding of Python `str.lower` restricted to the ASCII range that the
configured indicator strings use (`Char.toLower` lowercases ASCII letters). -/
def lowerChars (s : String) : List Char :=
  s.data.map Char.toLower

/-- Test that the first list is a leading segment of the second. -/
def listStartsWith : List Char → List Char → Bool
  | [], _ => true
  | _ :: _, [] => false
  | a :: as, b :: bs => a = b && listStartsWith as bs

/-- Embedding of Python's `needle in hay` substring test on char lists. -/
def listContainsSeq (needle : List Char) : List Char → Bool
  | [] => needle.isEmpty
  | b :: bs => listStartsWith needle (b :: bs) || listContainsSeq needle bs

/-- The case-insensitive substring test `needle.lower() in hay.lower()`
used by the block-detection check in `launch_browser_with_fallback`. -/
def containsLower (needle hay : String) : Bool :=
  listContainsSeq (lowerChars needle) (lowerChars hay)

/-- Embedding of Python `str.strip()`: drop leading and trailing whitespace. -/
def pyStrip (s : String) : String :=
  String.mk (((s.data.dropWhile Char.isWhitespace).reverse.dropWhile
    Char.isWhitespace).reverse)

/-! ## Configuration constants (src/config/settings.py) -/

/-- The engine names of the "chromium" and "firefox" entries of
`BROWSER_FALLBACK`, used below when a concrete engine is needed. -/
def chromium : String := "chromium"

/-- The second engine name of `BROWSER_FALLBACK`. -/
def firefox : String := "firefox"

/-- Setting `BROWSER_FALLBACK = ['chromium', 'firefox']`
(settings.py line 11). -/
def BROWSER_FALLBACK : List String := [chromium, firefox]

/-- Setting `CLOUDFLARE_TITLE = 'Cloudflare'` (settings.py line 17). -/
def CLOUDFLARE_TITLE : String := "Cloudflare"

/-- Setting `TIMEOUT = 90000`, the navigation bound in ms
(settings.py line 14). -/
def TIMEOUT : Nat := 90000

/-! ## Block detection (src/utils/helpers.py lines 156-163)

After navigation the code reads `title` and `body` and raises when
`CLOUDFLARE_TITLE.lower() in title.lower() or "just a moment" in
title.lower() or "checking your browser" in body.lower() or
len(body) < 1000`. -/

/-- The block-detection predicate of helpers.py lines 159-162. -/
def isBlocked (title body : String) : Bool :=
  containsLower CLOUDFLARE_TITLE title ||
  containsLower ("just a moment") title ||
  containsLower ("checking your browser") body ||
  decide (body.length < 1000)

/-! ## One engine attempt (src/utils/helpers.py lines 73-174)

One iteration of the `for browser_type in BROWSER_FALLBACK` loop.  The
environment's behaviour for an attempt on one engine is summarised by an
`AttemptSpec`: whether `p[browser_type].launch(...)` completes (it raises on
a missing binary or environment problem), whether `page.goto(...)` completes
within `TIMEOUT` (it raises `PWTimeout` otherwise), the title and body text
the page reports after navigation, and whether `browser.close()` raises in
the handler.  `closeRaises` is recorded but — exactly like the code's bare
`try: await browser.close() except: pass` — can never influence control
flow, which is why no definition below reads it. -/

structure AttemptSpec where
  launchOk : Bool
  navOk : Bool
  title : String
  body : String
  closeRaises : Bool

/-- Errors a single attempt's `try:` body can raise (helpers.py lines
76-166): a launch failure, a `PWTimeout` from `goto`, or the explicit
`raise PWTimeout("Anti-bot detected")` on a detected block.  All three are
`Exception`s in the source, so the `except Exception` handler at line 168
catches every one of them. -/
inductive AttemptError where
  | launchFailure
  | navTimeout
  | blocked
deriving DecidableEq, Repr

/-- The `try:` body of one engine attempt: `.error` models an exception
escaping the body, `.ok` models reaching `return page, context`. -/
def attemptOnce (a : AttemptSpec) : Except AttemptError Unit :=
  if a.launchOk = false then .error .launchFailure
  else if a.navOk = false then .error .navTimeout
  else if isBlocked a.title a.body then .error .blocked
  else .ok ()

/-- The stealth init scripts registered with `page.add_init_script` in
helpers.py lines 109-146, in source order. -/
inductive Stealth where
  | webdriver
  | plugins
  | languages
  | chromeRuntime
  | permissions
deriving DecidableEq, Repr

/-- Observable actions of the acquirer, tagged with the engine name. -/
inductive Ev where
  | launch (e : String)
  | newContext (e : String)
  | newPage (e : String)
  | inject (e : String) (s : Stealth)
  | delay (e : String)
  | navigate (e : String)
  | close (e : String)
deriving DecidableEq, Repr

/-- The actions one attempt on engine `e` performs, in the order of
helpers.py lines 77-154: launch; `browser.new_context`; `context.new_page`;
the five `add_init_script` calls; the human delay; `page.goto`.  When the
launch raises, only the launch call itself happened. -/
def attemptEvents (e : String) (a : AttemptSpec) : List Ev :=
  if a.launchOk then
    [Ev.launch e, Ev.newContext e, Ev.newPage e,
     Ev.inject e Stealth.webdriver, Ev.inject e Stealth.plugins,
     Ev.inject e Stealth.languages, Ev.inject e Stealth.chromeRuntime,
     Ev.inject e Stealth.permissions,
     Ev.delay e, Ev.navigate e]
  else [Ev.launch e]

/-! ## The fallback loop (src/utils/helpers.py lines 73-177)

The engine list iterated comes from `BROWSER_FALLBACK`; following the spec's
quantification over engine lists it is a parameter here.  `behave` gives the
environment's response to the attempt on each engine.  The result is the
trace of actions together with the value returned to the caller: `some e`
models `return page, context` with the page and context created by engine
`e`, and `none` models the sentinel `return None, None` of line 177. -/

def launch_browser_with_fallback (behave : String → AttemptSpec) :
    List String → List Ev × Option String
  | [] => ([], none)
  | e :: rest =>
    let a := behave e
    match attemptOnce a with
    | .ok _ => (attemptEvents e a, some e)
    | .error _ =>
      let closeEvs := if a.launchOk then [Ev.close e] else []
      let tr := launch_browser_with_fallback behave rest
      (attemptEvents e a ++ closeEvs ++ tr.1, tr.2)

/-- The engines on which an attempt was started (the `p[browser_type].launch`
call was made), in trace order. -/
def startedAttempts (t : List Ev) : List String :=
  t.filterMap fun ev =>
    match ev with
    | Ev.launch e => some e
    | _ => none

/-- Recogniser for navigation actions in a trace. -/
def isNavEvent : Ev → Bool
  | Ev.navigate _ => true
  | _ => false

/-! ## Concrete environments used as witnesses -/

/-- An attempt whose engine launch raises (e.g. missing binary). -/
def launchFailEnv : AttemptSpec := ⟨false, true, "", "", false⟩

/-- An attempt whose navigation times out and whose `browser.close()` also
raises in the handler. -/
def navTimeoutEnv : AttemptSpec := ⟨true, false, "", "", true⟩

/-- An attempt that reaches a clean page: neutral title, body of length
1000, so no block indicator fires. -/
def cleanPage : AttemptSpec :=
  ⟨true, true, "Shop", String.mk (List.replicate 1000 'a'), false⟩

/-! ## Helper lemmas about traces -/

theorem startedAttempts_append (s t : List Ev) :
    startedAttempts (s ++ t) = startedAttempts s ++ startedAttempts t := by
  simp [startedAttempts, List.filterMap_append]

theorem startedAttempts_attemptEvents (e : String) (a : AttemptSpec) :
    startedAttempts (attemptEvents e a) = [e] := by
  cases h : a.launchOk <;> simp [attemptEvents, h, startedAttempts]

theorem startedAttempts_closeEvs (e : String) (b : Bool) :
    startedAttempts (if b then [Ev.close e] else []) = [] := by
  cases b <;> simp [startedAttempts]

/-- Unfolding of the fallback loop on a failing head attempt. -/
theorem fallback_cons_fail (behave : String → AttemptSpec) (e : String)
    (rest : List String) (err : AttemptError)
    (hres : attemptOnce (behave e) = .error err) :
    launch_browser_with_fallback behave (e :: rest) =
      (attemptEvents e (behave e) ++
        (if (behave e).launchOk then [Ev.close e] else []) ++
        (launch_browser_with_fallback behave rest).1,
       (launch_browser_with_fallback behave rest).2) := by
  simp [launch_browser_with_fallback, hres]

/-- Unfolding of the fallback loop on a successful head attempt. -/
theorem fallback_cons_ok (behave : String → AttemptSpec) (e : String)
    (rest : List String)
    (hres : attemptOnce (behave e) = .ok ()) :
    launch_browser_with_fallback behave (e :: rest) =
      (attemptEvents e (behave e), some e) := by
  simp [launch_browser_with_fallback, hres]

theorem isOk_false_elim {a : AttemptSpec}
    (h : (attemptOnce a).isOk = false) :
    ∃ err, attemptOnce a = .error err := by
  cases hres : attemptOnce a with
  | ok v => rw [hres] at h; simp [Except.isOk, Except.toBool] at h
  | error err => exact ⟨err, rfl⟩

theorem isOk_true_elim {a : AttemptSpec}
    (h : (attemptOnce a).isOk = true) :
    attemptOnce a = .ok () := by
  cases hres : attemptOnce a with
  | ok v => rfl
  | error err => rw [hres] at h; simp [Except.isOk, Except.toBool] at h

/-! ## Claim theorems -/

/-- C1: for every engine list, if every engine's attempt fails, the acquirer
starts exactly one attempt per engine, in list order with none skipped or
repeated (the trace's started attempts are the engine list itself), and
returns the sentinel `None, None` (modelled `none`) instead of a session. -/
theorem fallback_exhausts_in_order (behave : String → AttemptSpec)
    (es : List String)
    (h : ∀ e ∈ es, (attemptOnce (behave e)).isOk = false) :
    (launch_browser_with_fallback behave es).2 = none ∧
    startedAttempts (launch_browser_with_fallback behave es).1 = es := by
  induction es with
  | nil => simp [launch_browser_with_fallback, startedAttempts]
  | cons e rest ih =>
    obtain ⟨err, hres⟩ := isOk_false_elim (h e (by simp))
    obtain ⟨ih1, ih2⟩ := ih (fun x hx => h x (List.mem_cons_of_mem _ hx))
    rw [fallback_cons_fail behave e rest err hres]
    refine ⟨ih1, ?_⟩
    simp [startedAttempts_append, startedAttempts_attemptEvents,
      startedAttempts_closeEvs, ih2]

set_option maxRecDepth 10000 in
theorem fallback_exhausts_in_order_witness :
    (launch_browser_with_fallback (fun _ => launchFailEnv)
      BROWSER_FALLBACK).2 = none ∧
    startedAttempts (launch_browser_with_fallback (fun _ => launchFailEnv)
      BROWSER_FALLBACK).1 = BROWSER_FALLBACK :=
  fallback_exhausts_in_order (fun _ => launchFailEnv) BROWSER_FALLBACK
    (fun _ _ => rfl)

/-- C2: if the attempts on every engine before position k fail and the
attempt on the engine at position k succeeds (navigation completes and no
block indicator fires), the acquirer returns the session created by that
engine and starts no attempt on any later engine. -/
theorem fallback_first_success (behave : String → AttemptSpec)
    (pre post : List String) (e : String)
    (hpre : ∀ x ∈ pre, (attemptOnce (behave x)).isOk = false)
    (hk : (attemptOnce (behave e)).isOk = true) :
    (launch_browser_with_fallback behave (pre ++ e :: post)).2 = some e ∧
    startedAttempts
      (launch_browser_with_fallback behave (pre ++ e :: post)).1 =
      pre ++ [e] := by
  induction pre with
  | nil =>
    rw [List.nil_append, fallback_cons_ok behave e post (isOk_true_elim hk)]
    simp [startedAttempts_attemptEvents]
  | cons x xs ih =>
    obtain ⟨err, hres⟩ := isOk_false_elim (hpre x (by simp))
    obtain ⟨ih1, ih2⟩ := ih (fun y hy => hpre y (List.mem_cons_of_mem _ hy))
    rw [List.cons_append, fallback_cons_fail behave x (xs ++ e :: post) err hres]
    refine ⟨ih1, ?_⟩
    simp [startedAttempts_append, startedAttempts_attemptEvents,
      startedAttempts_closeEvs, ih2]

set_option maxRecDepth 10000 in
theorem fallback_first_success_witness :
    (launch_browser_with_fallback
      (fun x => if x = chromium then navTimeoutEnv else cleanPage)
      ([chromium] ++ firefox :: [])).2 = some firefox ∧
    startedAttempts (launch_browser_with_fallback
      (fun x => if x = chromium then navTimeoutEnv else cleanPage)
      ([chromium] ++ firefox :: [])).1 = [chromium] ++ [firefox] :=
  fallback_first_success
    (fun x => if x = chromium then navTimeoutEnv else cleanPage)
    [chromium] [] firefox
    (fun x hx => by
      simp at hx
      subst hx
      decide)
    (by decide)

/-- C3: the block check classifies a completed navigation as blocked
whenever the page title contains the configured block substring
`CLOUDFLARE_TITLE` case-insensitively, regardless of the body, and also
whenever the body text is shorter than the 1000-character threshold, even
when no title indicator matches. -/
theorem block_detection_rules (title body : String) :
    (containsLower CLOUDFLARE_TITLE title = true → isBlocked title body = true) ∧
    (body.length < 1000 → isBlocked title body = true) := by
  constructor
  · intro h
    simp [isBlocked, h]
  · intro h
    simp [isBlocked, h]

/-- A page title carrying the configured block substring in another case. -/
def challengeTitle : String := "cloudflare challenge"

/-- A neutral page title matching no indicator. -/
def shopTitle : String := "Shop"

/-- A body of 1000 characters, at the length threshold. -/
def longBody : String := String.mk (List.replicate 1000 'x')

/-- A body below the 1000-character threshold. -/
def shortBody : String := "short page"

set_option maxRecDepth 10000 in
theorem block_detection_rules_witness :
    isBlocked challengeTitle longBody = true ∧
    isBlocked shopTitle shortBody = true :=
  ⟨(block_detection_rules challengeTitle longBody).1 (by decide),
   (block_detection_rules shopTitle shortBody).2 (by decide)⟩

/-- C4: the acquirer returns the sentinel `none` exactly when every
engine's attempt raised a per-attempt error (launch failure, navigation
timeout or detected block); every such error is consumed by the handler, so
the caller only ever observes a session or the sentinel, never a raised
exception (the return type `Option` has no error channel). -/
theorem only_sentinel_on_exhaustion (behave : String → AttemptSpec)
    (es : List String) :
    (launch_browser_with_fallback behave es).2 = none ↔
    ∀ e ∈ es, (attemptOnce (behave e)).isOk = false := by
  induction es with
  | nil => simp [launch_browser_with_fallback]
  | cons e rest ih =>
    cases hres : attemptOnce (behave e) with
    | ok v =>
      cases v
      rw [fallback_cons_ok behave e rest hres]
      constructor
      · intro hnone
        simp at hnone
      · intro hall
        have hc := hall e (List.mem_cons_self e rest)
        rw [hres] at hc
        simp [Except.isOk, Except.toBool] at hc
    | error err =>
      have he : (attemptOnce (behave e)).isOk = false := by
        rw [hres]
        rfl
      rw [fallback_cons_fail behave e rest err hres]
      show (launch_browser_with_fallback behave rest).2 = none ↔ _
      rw [ih]
      constructor
      · intro hall x hx
        rcases List.mem_cons.mp hx with rfl | hx
        · exact he
        · exact hall x hx
      · intro hall x hx
        exact hall x (List.mem_cons_of_mem _ hx)

theorem only_sentinel_on_exhaustion_witness :
    (launch_browser_with_fallback (fun _ => navTimeoutEnv)
      [chromium]).2 = none :=
  (only_sentinel_on_exhaustion (fun _ => navTimeoutEnv) [chromium]).mpr
    (fun _ _ => rfl)

/-- C5 counterexample: an attempt whose launch itself raises is a failed
attempt, yet no `browser.close()` is invoked for it (the `browser` variable
is still `None` in the handler), refuting "closure is invoked exactly once
for every failed attempt". -/
theorem close_missing_on_launch_failure :
    (attemptOnce launchFailEnv).isOk = false ∧
    (launch_browser_with_fallback (fun _ => launchFailEnv)
      [chromium]).1.count (Ev.close chromium) = 0 := by
  decide

/-- C5 (amended): for every failed attempt in which the launch succeeded,
`browser.close()` is invoked exactly once, after the attempt's own actions
and before anything of the next engine's attempt (it never occurs among the
attempt's actions); when the launch itself raised, no close is invoked.
Because the handler swallows exceptions from `close()` itself, the loop
continues with the remaining engines for every environment, including those
where close raises (`closeRaises` is unread by the model, as the bare
`except: pass` makes it unobservable). -/
theorem close_once_per_launched_failure (behave : String → AttemptSpec)
    (e : String) (rest : List String)
    (hfail : (attemptOnce (behave e)).isOk = false)
    (hlaunch : (behave e).launchOk = true) :
    (launch_browser_with_fallback behave (e :: rest)).1 =
      attemptEvents e (behave e) ++ [Ev.close e] ++
        (launch_browser_with_fallback behave rest).1 ∧
    Ev.close e ∉ attemptEvents e (behave e) ∧
    (launch_browser_with_fallback behave (e :: rest)).2 =
      (launch_browser_with_fallback behave rest).2 := by
  obtain ⟨err, hres⟩ := isOk_false_elim hfail
  rw [fallback_cons_fail behave e rest err hres]
  refine ⟨by simp [hlaunch], ?_, rfl⟩
  simp [attemptEvents, hlaunch]

theorem close_once_per_launched_failure_witness :
    (launch_browser_with_fallback (fun _ => navTimeoutEnv)
      [chromium, firefox]).1 =
      attemptEvents chromium navTimeoutEnv ++ [Ev.close chromium] ++
        (launch_browser_with_fallback (fun _ => navTimeoutEnv)
          [firefox]).1 ∧
    Ev.close chromium ∉ attemptEvents chromium navTimeoutEnv ∧
    (launch_browser_with_fallback (fun _ => navTimeoutEnv)
      [chromium, firefox]).2 =
      (launch_browser_with_fallback (fun _ => navTimeoutEnv)
        [firefox]).2 :=
  close_once_per_launched_failure (fun _ => navTimeoutEnv) chromium
    [firefox] rfl rfl

/-- C6: within every attempt whose launch succeeded, the navigation is the
last action of the attempt, it occurs nowhere earlier, and every one of the
five fingerprint-override init scripts is registered before it. -/
theorem injections_before_navigation (e : String) (a : AttemptSpec)
    (h : a.launchOk = true) :
    ∃ pre, attemptEvents e a = pre ++ [Ev.navigate e] ∧
      Ev.navigate e ∉ pre ∧
      ∀ s : Stealth, Ev.inject e s ∈ pre := by
  refine ⟨[Ev.launch e, Ev.newContext e, Ev.newPage e,
    Ev.inject e Stealth.webdriver, Ev.inject e Stealth.plugins,
    Ev.inject e Stealth.languages, Ev.inject e Stealth.chromeRuntime,
    Ev.inject e Stealth.permissions, Ev.delay e], ?_, ?_, ?_⟩
  · simp [attemptEvents, h]
  · simp
  · intro s
    cases s <;> simp

theorem injections_before_navigation_witness :
    ∃ pre, attemptEvents chromium navTimeoutEnv =
        pre ++ [Ev.navigate chromium] ∧
      Ev.navigate chromium ∉ pre ∧
      ∀ s : Stealth, Ev.inject chromium s ∈ pre :=
  injections_before_navigation chromium navTimeoutEnv rfl

/-! ## Saipa's bounded navigation retry
(src/scrapers/sapia_stopyadak_scraper.py lines 83-97)

`for attempt in range(3): try: goto/wait_for_selector; break except: sleep`
followed by `else: return`.  `navOk i` says whether try number `i`
completes; the model returns the list of try indices performed together
with whether the loop exited via `break` (success).  When the flag is
`false` the `for`-`else` branch runs `return`, aborting `scrape()` before
any extraction. -/

def saipaRetryAux (navOk : Nat → Bool) : List Nat → List Nat × Bool
  | [] => ([], false)
  | i :: rest =>
    if navOk i then ([i], true)
    else
      let tr := saipaRetryAux navOk rest
      (i :: tr.1, tr.2)

/-- The Saipa navigation retry loop over `range(3)`. -/
def saipaNavRetry (navOk : Nat → Bool) : List Nat × Bool :=
  saipaRetryAux navOk [0, 1, 2]

/-- C7: a single engine attempt of the acquirer performs at most one
navigation; the Saipa caller's own retry of the navigation step performs at
most 3 tries, and when all three fail it has tried exactly tries 0, 1, 2
and reports failure, upon which `scrape()` returns without extracting. -/
theorem single_navigation_and_bounded_retry (e : String) (a : AttemptSpec)
    (navOk : Nat → Bool) :
    ((attemptEvents e a).filter isNavEvent).length ≤ 1 ∧
    (saipaNavRetry navOk).1.length ≤ 3 ∧
    ((∀ i, i < 3 → navOk i = false) →
      (saipaNavRetry navOk).1 = [0, 1, 2] ∧
      (saipaNavRetry navOk).2 = false) := by
  refine ⟨?_, ?_, ?_⟩
  · cases h : a.launchOk <;> simp [attemptEvents, h, isNavEvent]
  · cases h0 : navOk 0 <;> cases h1 : navOk 1 <;> cases h2 : navOk 2 <;>
      simp [saipaNavRetry, saipaRetryAux, h0, h1, h2]
  · intro hall
    have h0 := hall 0 (by norm_num)
    have h1 := hall 1 (by norm_num)
    have h2 := hall 2 (by norm_num)
    simp [saipaNavRetry, saipaRetryAux, h0, h1, h2]

theorem single_navigation_and_bounded_retry_witness :
    ((attemptEvents firefox launchFailEnv).filter isNavEvent).length ≤ 1 ∧
    (saipaNavRetry (fun _ => false)).1.length ≤ 3 ∧
    ((saipaNavRetry (fun _ => false)).1 = [0, 1, 2] ∧
      (saipaNavRetry (fun _ => false)).2 = false) :=
  ⟨(single_navigation_and_bounded_retry firefox launchFailEnv
      (fun _ => false)).1,
   (single_navigation_and_bounded_retry firefox launchFailEnv
      (fun _ => false)).2.1,
   (single_navigation_and_bounded_retry firefox launchFailEnv
      (fun _ => false)).2.2 (fun _ _ => rfl)⟩

/-! ## Scraper acquisition call sites (C8)

Each scraper imports `launch_browser_with_fallback` from `utils.helpers`
(the acquirer's single exposed operation) and is meant to call it for its
`(page, context)`.  Python resolves the callee name at the call site
against the module's bindings; the definitions below record, from the
source, the names bound at module scope of ikcopart_scraper.py and the
callee name each scraper's acquisition call site references. -/

/-- Names bound at module scope of src/scrapers/ikcopart_scraper.py:
the imports of lines 13-23, the module constants of lines 26-37, and the
module's own functions. -/
def ikcoModuleNames : List String :=
  ["asyncio", "time", "Path", "async_playwright", "PWTimeout",
   "setup_logging", "save_to_csv", "get_current_date_str",
   "launch_browser_with_fallback", "TIMEOUT", "SCROLL_WAIT_TIME",
   "START_URL", "PART_NAME_SELECTOR", "PRICE_SELECTOR", "OUTPUT_DIR",
   "logger", "scroll_and_load", "get_total_pages", "scrape"]

/-- Callee of the acquisition call in src/scrapers/isaco_scraper.py
line 71. -/
def isacoAcquireCallee : String := "launch_browser_with_fallback"

/-- Callee of the acquisition call in
src/scrapers/sapia_stopyadak_scraper.py line 75. -/
def saipaAcquireCallee : String := "launch_browser_with_fallback"

/-- Callee of the acquisition call in src/scrapers/ikcopart_scraper.py
line 81. -/
def ikcoAcquireCallee : String := "launch_browserfallback"

/-- C8 fails on the code: Isaco's and Saipa's scrape functions call the
imported acquirer `launch_browser_with_fallback`, and that name is indeed
bound in the IKCO module as well (its line-20 import), but IKCO's own call
site references `launch_browserfallback`, which is bound nowhere in the
module — calling `scrape()` raises `NameError` there before any session can
be acquired, contradicting the module's header comment and its import. -/
theorem ikco_acquire_callee_undefined :
    isacoAcquireCallee = "launch_browser_with_fallback" ∧
    saipaAcquireCallee = "launch_browser_with_fallback" ∧
    "launch_browser_with_fallback" ∈ ikcoModuleNames ∧
    ikcoAcquireCallee ∉ ikcoModuleNames := by
  decide

/-! ## save_to_csv (src/utils/helpers.py lines 37-49) -/

/-- A CSV row: the `part_name` column, which `sort_values` keys on, plus
the record's remaining (column, value) pairs. -/
structure Row where
  part_name : String
  rest : List (String × String)
deriving DecidableEq, Repr

def dropDupAux (seen : List Row) : List Row → List Row
  | [] => []
  | r :: rs =>
    if r ∈ seen then dropDupAux seen rs
    else r :: dropDupAux (r :: seen) rs

/-- Embedding of `pandas.DataFrame.drop_duplicates()` with its default
`keep='first'`: remove every row equal, in all columns, to an earlier
row. -/
def dropDuplicates (l : List Row) : List Row :=
  dropDupAux [] l

/-- The key order of `df.sort_values("part_name")`: ascending comparison of
the `part_name` column (lexicographic on code points, as in Python). -/
def rowLe (r s : Row) : Prop :=
  r.part_name ≤ s.part_name

instance : DecidableRel rowLe :=
  fun r s => inferInstanceAs (Decidable (r.part_name ≤ s.part_name))

instance : IsTotal Row rowLe :=
  ⟨fun a b => le_total a.part_name b.part_name⟩

instance : IsTrans Row rowLe :=
  ⟨fun _ _ _ hab hbc => le_trans hab hbc⟩

/-- Embedding of `save_to_csv(data, prefix, output_dir)` (helpers.py lines
37-49).  Result `none`: the early return for empty data, no file written.  Otherwise
the path written, `output_dir/prefix_<today>.csv` with `today` the
`%Y-%m-%d` date string (a parameter of the model), paired with the rows
written: `pd.DataFrame(data).drop_duplicates().sort_values("part_name")`.
The sort is embedded as an insertion sort; pandas's default quicksort
guarantees the same key order and row multiset but not tie order, and the
theorems below use only those guarantees. -/
def save_to_csv (data : List Row) (pref outputDir today : String) :
    Option (String × List Row) :=
  if data.isEmpty then none
  else
    some (outputDir ++ "/" ++ pref ++ "_" ++ today ++ ".csv",
      List.insertionSort rowLe (dropDuplicates data))

theorem mem_dropDupAux (r : Row) :
    ∀ (l : List Row) (seen : List Row),
      r ∈ dropDupAux seen l ↔ r ∈ l ∧ r ∉ seen := by
  intro l
  induction l with
  | nil => intro seen; simp [dropDupAux]
  | cons x xs ih =>
    intro seen
    by_cases hx : x ∈ seen
    · rw [dropDupAux, if_pos hx, ih]
      constructor
      · rintro ⟨hr, hs⟩
        exact ⟨List.mem_cons_of_mem _ hr, hs⟩
      · rintro ⟨hr, hs⟩
        rcases List.mem_cons.mp hr with rfl | hr
        · exact absurd hx hs
        · exact ⟨hr, hs⟩
    · rw [dropDupAux, if_neg hx]
      constructor
      · intro hmem
        rcases List.mem_cons.mp hmem with rfl | hmem
        · exact ⟨List.mem_cons_self _ _, hx⟩
        · have := (ih (x :: seen)).mp hmem
          exact ⟨List.mem_cons_of_mem _ this.1,
            fun hs => this.2 (List.mem_cons_of_mem _ hs)⟩
      · rintro ⟨hr, hs⟩
        rcases List.mem_cons.mp hr with rfl | hr
        · exact List.mem_cons_self _ _
        · by_cases hrx : r = x
          · subst hrx; exact List.mem_cons_self _ _
          · exact List.mem_cons_of_mem _ ((ih (x :: seen)).mpr
              ⟨hr, fun hmem => by
                rcases List.mem_cons.mp hmem with h | h
                · exact hrx h
                · exact hs h⟩)

theorem nodup_dropDupAux :
    ∀ (l : List Row) (seen : List Row), (dropDupAux seen l).Nodup := by
  intro l
  induction l with
  | nil => intro seen; simp [dropDupAux]
  | cons x xs ih =>
    intro seen
    by_cases hx : x ∈ seen
    · rw [dropDupAux, if_pos hx]; exact ih seen
    · rw [dropDupAux, if_neg hx]
      refine List.nodup_cons.mpr ⟨?_, ih (x :: seen)⟩
      intro hmem
      exact ((mem_dropDupAux x xs (x :: seen)).mp hmem).2
        (List.mem_cons_self _ _)

/-- C9: `save_to_csv` returns `None` (writing nothing) on an empty data
list; on a non-empty list the written path is
`output_dir/prefix_<today>.csv` and the rows written are exactly the input
rows with exact duplicate rows removed (no duplicates remain, and a row is
written iff it occurred in the input), sorted ascending by the `part_name`
column. -/
theorem save_to_csv_spec (data : List Row) (pref dir today : String) :
    (data = [] → save_to_csv data pref dir today = none) ∧
    (data ≠ [] → ∃ rows,
      save_to_csv data pref dir today =
        some (dir ++ "/" ++ pref ++ "_" ++ today ++ ".csv", rows) ∧
      rows.Nodup ∧ (∀ r, r ∈ rows ↔ r ∈ data) ∧
      List.Sorted rowLe rows) := by
  constructor
  · intro h
    subst h
    simp [save_to_csv]
  · intro h
    have hne : data.isEmpty = false := by
      cases data with
      | nil => exact absurd rfl h
      | cons a l => rfl
    refine ⟨List.insertionSort rowLe (dropDuplicates data), ?_, ?_, ?_, ?_⟩
    · simp [save_to_csv, hne]
    · exact (List.perm_insertionSort rowLe (dropDuplicates data)).nodup_iff.mpr
        (nodup_dropDupAux data [])
    · intro r
      rw [(List.perm_insertionSort rowLe (dropDuplicates data)).mem_iff]
      rw [dropDuplicates, mem_dropDupAux]
      simp
    · exact List.sorted_insertionSort rowLe (dropDuplicates data)

/-- The CSV file name parts used by the concrete witness below. -/
def isacoPref : String := "isaco"

/-- The default output directory of `save_to_csv`. -/
def outputDir : String := "output"

/-- A sample value of the strftime date string. -/
def sampleDate : String := "2026-10-12"

/-- A sample data list holding an exact duplicate and unsorted keys. -/
def sampleRows : List Row := [⟨"b", []⟩, ⟨"a", []⟩, ⟨"b", []⟩]

theorem save_to_csv_spec_witness :
    save_to_csv [] isacoPref outputDir sampleDate = none ∧
    ∃ rows,
      save_to_csv sampleRows isacoPref outputDir sampleDate =
        some (outputDir ++ "/" ++ isacoPref ++ "_" ++ sampleDate ++ ".csv",
          rows) ∧
      rows.Nodup ∧
      (∀ r, r ∈ rows ↔ r ∈ sampleRows) ∧
      List.Sorted rowLe rows :=
  ⟨(save_to_csv_spec [] isacoPref outputDir sampleDate).1 rfl,
   (save_to_csv_spec sampleRows isacoPref outputDir sampleDate).2
     (by decide)⟩

/-! ## Extraction loops of the Saipa and IKCO scrapers (C10)

sapia_stopyadak_scraper.py lines 109-121 and ikcopart_scraper.py lines
101-111 run the same loop: `for name_elem, price_elem in zip(names,
prices):` take `part_name = inner_text().strip()` of the name element and
`price = "".join(filter(str.isdigit, inner_text().strip()))` of the price
element, appending a record only `if part_name and price:`.  The character
test `str.isdigit` is abstracted as a parameter `isdig`; every theorem
below holds for an arbitrary predicate, in particular for the one Python
implements. -/

/-- A record appended by the Saipa/IKCO extraction loops.  The
`source_url` and `scrape_date` fields are constants of the enclosing
scrape and are omitted. -/
structure SRecord where
  part_name : String
  price : String
deriving DecidableEq, Repr

/-- The body of one loop iteration, applied to the texts of the i-th name
element and the i-th price element; `none` models a dropped pair. -/
def recordOfPair (isdig : Char → Bool) (nameTxt priceTxt : String) :
    Option SRecord :=
  if pyStrip nameTxt ≠ "" ∧
      String.mk ((pyStrip priceTxt).data.filter isdig) ≠ "" then
    some ⟨pyStrip nameTxt, String.mk ((pyStrip priceTxt).data.filter isdig)⟩
  else none

/-- The whole extraction loop over `zip(names, prices)`. -/
def extractRecords (isdig : Char → Bool) (names prices : List String) :
    List SRecord :=
  (names.zip prices).filterMap (fun np => recordOfPair isdig np.1 np.2)

theorem recordOfPair_some {isdig : Char → Bool} {n p : String}
    {r : SRecord} (h : recordOfPair isdig n p = some r) :
    r.part_name = pyStrip n ∧
    r.price = String.mk ((pyStrip p).data.filter isdig) ∧
    r.part_name ≠ "" ∧ r.price ≠ "" := by
  unfold recordOfPair at h
  split at h
  case isTrue hc =>
    injection h with h
    subst h
    exact ⟨rfl, rfl, hc.1, hc.2⟩
  case isFalse hc =>
    exact absurd h (by simp)

theorem mem_zip_get {α β : Type} {a : α} {b : β} :
    ∀ {l₁ : List α} {l₂ : List β}, (a, b) ∈ l₁.zip l₂ →
      ∃ i, l₁.get? i = some a ∧ l₂.get? i = some b := by
  intro l₁
  induction l₁ with
  | nil => intro l₂ h; simp [List.zip] at h
  | cons x xs ih =>
    intro l₂ h
    cases l₂ with
    | nil => simp [List.zip] at h
    | cons y ys =>
      rcases List.mem_cons.mp h with heq | hmem
      · obtain ⟨rfl, rfl⟩ := Prod.mk.injEq .. ▸ Prod.mk.inj heq
        exact ⟨0, rfl, rfl⟩
      · obtain ⟨i, h1, h2⟩ := ih hmem
        exact ⟨i + 1, h1, h2⟩

/-- C10: in the Saipa and IKCO extraction loops, at most
`min (#names) (#prices)` records are collected; every collected record
pairs the i-th name element with the i-th price element for some common
index i, has a non-empty `part_name`, and has a non-empty `price`
consisting exactly of the digit characters filtered from the raw price
text; pairs failing these conditions are dropped. -/
theorem extraction_pairs_and_filters (isdig : Char → Bool)
    (names prices : List String) :
    (extractRecords isdig names prices).length ≤
      min names.length prices.length ∧
    ∀ r ∈ extractRecords isdig names prices,
      r.part_name ≠ "" ∧ r.price ≠ "" ∧
      r.price.data.all isdig = true ∧
      ∃ i n p, names.get? i = some n ∧ prices.get? i = some p ∧
        recordOfPair isdig n p = some r := by
  constructor
  · calc (extractRecords isdig names prices).length
        ≤ (names.zip prices).length := List.length_filterMap_le _ _
      _ = min names.length prices.length := List.length_zip _ _
  · intro r hr
    obtain ⟨np, hnp, hsome⟩ := List.mem_filterMap.mp hr
    obtain ⟨i, hn, hp⟩ := mem_zip_get (a := np.1) (b := np.2) (by simpa using hnp)
    obtain ⟨hname, hprice, hn0, hp0⟩ := recordOfPair_some hsome
    refine ⟨hn0, hp0, ?_, i, np.1, np.2, hn, hp, hsome⟩
    rw [hprice]
    simp [List.all_eq_true, List.mem_filter]

/-- Sample name texts: one valid, one blank after stripping pairs off. -/
def sampleNames : List String := ["part", "x"]

/-- Sample price texts: one with digits, one with none. -/
def samplePrices : List String := ["12a", "b"]

/-- The single record the loop collects from the samples above. -/
def sampleRecord : SRecord := ⟨"part", "12"⟩

theorem extraction_pairs_and_filters_witness :
    sampleRecord.part_name ≠ "" ∧
    sampleRecord.price ≠ "" ∧
    sampleRecord.price.data.all Char.isDigit = true ∧
    ∃ i n p, sampleNames.get? i = some n ∧
      samplePrices.get? i = some p ∧
      recordOfPair Char.isDigit n p = some sampleRecord :=
  (extraction_pairs_and_filters Char.isDigit sampleNames samplePrices).2
    sampleRecord (by decide)

end VPScraper
